import Mathlib

/-!
Verification of the MovieRockstar catalog client and recommendation provider.

The repository is a FastAPI app (src/main.py) around a TMDB HTTP client
(`TMDBClient`) plus an OpenAI wrapper (src/openai_utils.py).  The heart of the
catalog client is `TMDBClient._make_request` (src/main.py lines 72-248).  That
function body is a botched merge: lines 109-181 form one complete retry loop
(ending in `raise HTTPException(...)` after the loop), while lines 182-248 are
the orphaned tail of an older implementation — line 182 (`headers=headers,`)
dangles after the already-closed `raise` call of lines 178-181, so under Python
syntax the text from line 182 on is not part of any reachable statement.  We
therefore embed the semantics of the *live* implementation, lines 109-181, and
note where claims describe only the dead fragment.

The embedding is oracle-based: the network is a function from the attempt
index to the observed per-attempt outcome (`Resp`), and the value that
`random.random()` would produce is a second oracle (`randomOracle`), consulted
only behind the guard that checks whether the name `random` is actually bound
at module level in src/main.py — it is not (lines 1-19 import `aiohttp`,
`asyncio`, `logging`, `traceback`, FastAPI names, `requests`, `os`, `Path`,
typing names and `datetime`, never `random`), so every backoff branch raises
`NameError` in the embedding exactly as it would in CPython.

A run is summarised as the list of durations passed to `asyncio.sleep`
(in seconds, as rationals) together with either a returned JSON value or a
raised exception.
-/

/-- JSON values, the result of a successful `await response.json()`. -/
inductive JsonV where
  | null
  | bool (b : Bool)
  | num (n : Int)
  | str (s : String)
  | arr (elems : List JsonV)
  | obj (fields : List (String × JsonV))

/-- What one attempt of the retry loop observes from the network.
`ok v` is HTTP 200 whose body parses to `v`; `okBadJson` is HTTP 200 whose
body makes `response.json()` raise `json.JSONDecodeError`; `other` is any
non-200 HTTP status together with the optional `Retry-After` header value and
the body text; `transport` is an `aiohttp.ClientError` or
`asyncio.TimeoutError` raised by the request itself. -/
inductive Resp where
  | ok (v : JsonV)
  | okBadJson
  | other (status : Nat) (retryAfter : Option String) (body : String)
  | transport (msg : String)

/-- Python exceptions that can escape `_make_request` (live implementation,
src/main.py lines 109-181). -/
inductive PyExc where
  | httpException (status : Nat) (detail : String)
  | nameError (name : String)
  | valueError (msg : String)
  | jsonDecodeError
deriving DecidableEq, Repr

/-- The names bound at module level of src/main.py by its import statements,
lines 1-19 (`import m` binds `m`; `from m import a, b` binds `a`, `b`). -/
def mainImportedNames : List String :=
  ["aiohttp", "asyncio", "logging", "traceback",
   "FastAPI", "Request", "HTTPException", "JSONResponse",
   "StaticFiles", "Jinja2Templates", "HTMLResponse",
   "requests", "os", "Path", "List", "Dict", "Optional", "Any", "datetime"]

/-- Python `int(s)` on a string: strips surrounding whitespace and parses an
optionally signed decimal integer, `none` when it would raise `ValueError`. -/
def pyInt (s : String) : Option Int := s.trim.toInt?

/-- The outcome of a run: durations slept (seconds) and return-or-raise. -/
abbrev RunOutcome := List Rat × Except PyExc JsonV

/-- The retry loop of the live `_make_request`, src/main.py lines 109-181.
`attempt` is the loop variable of `for attempt in range(max_retries)`;
`remaining` is the number of loop iterations still to run (so the loop body
runs while `remaining > 0`, and falling off the end of the loop reaches the
`raise HTTPException` of lines 178-181).  Per iteration (lines 110-175):
status 200 returns `response.json()` (line 138) — a parse failure there is an
uncaught `json.JSONDecodeError`; status 429 sleeps
`int(headers.get('Retry-After', 1))` seconds and continues (lines 141-145);
any other status raises `HTTPException(status, ...)` on the final attempt
(lines 151-155) and otherwise evaluates the backoff expression
`1 + random.random() * (2 ** attempt)` (line 158), which raises
`NameError('random')` because `random` is not imported; a transport error
(caught at line 162) raises `HTTPException(500, ...)` on the final attempt
(lines 166-170) and otherwise hits the same undefined-`random` backoff
(line 173). -/
def make_request_loop (oracle : Nat → Resp) (randomOracle : Nat → Rat)
    (maxRetries : Nat) : Nat → Nat → RunOutcome
  | _, 0 =>
    ([], .error (.httpException 500
      ("Failed to fetch data from TMDB after " ++ toString maxRetries ++ " attempts")))
  | attempt, remaining + 1 =>
    match oracle attempt with
    | .ok v => ([], .ok v)
    | .okBadJson => ([], .error .jsonDecodeError)
    | .other status retryAfter body =>
      if status = 429 then
        match retryAfter with
        | none =>
          let rest := make_request_loop oracle randomOracle maxRetries (attempt + 1) remaining
          ((1 : Rat) :: rest.1, rest.2)
        | some h =>
          match pyInt h with
          | some n =>
            let rest := make_request_loop oracle randomOracle maxRetries (attempt + 1) remaining
            ((n : Rat) :: rest.1, rest.2)
          | none =>
            ([], .error (.valueError ("invalid literal for int with base 10: " ++ h)))
      else if attempt = maxRetries - 1 then
        ([], .error (.httpException status
          ("TMDB API error: " ++ toString status ++ " - " ++ body)))
      else if "random" ∈ mainImportedNames then
        let backoff : Rat := 1 + randomOracle attempt * ((2 : Rat) ^ attempt)
        let rest := make_request_loop oracle randomOracle maxRetries (attempt + 1) remaining
        (backoff :: rest.1, rest.2)
      else
        ([], .error (.nameError "random"))
    | .transport msg =>
      if attempt = maxRetries - 1 then
        ([], .error (.httpException 500
          ("Failed to fetch data from TMDB after " ++ toString maxRetries
            ++ " attempts: " ++ msg)))
      else if "random" ∈ mainImportedNames then
        let backoff : Rat := 1 + randomOracle attempt * ((2 : Rat) ^ attempt)
        let rest := make_request_loop oracle randomOracle maxRetries (attempt + 1) remaining
        (backoff :: rest.1, rest.2)
      else
        ([], .error (.nameError "random"))

/-- `TMDBClient._make_request` (live implementation): run the loop from
attempt 0 with the full budget.  The source default for `max_retries` is 3. -/
def make_request (oracle : Nat → Resp) (randomOracle : Nat → Rat)
    (maxRetries : Nat) : RunOutcome :=
  make_request_loop oracle randomOracle maxRetries 0 maxRetries

/-- Source default of the `max_retries` parameter (src/main.py line 76). -/
def defaultMaxRetries : Nat := 3

/-- Whether a run ended by raising an exception to the caller. -/
def isRaise : Except PyExc JsonV → Bool
  | .error _ => true
  | .ok _ => false

/-- The concrete body of spec §8's 200-case test: the parsed JSON of
the string `"{\x22results\x22:[{\x22id\x22:1}]}"`. -/
def resultsIdOne : JsonV := .obj [("results", .arr [.obj [("id", .num 1)]])]

/-- C7: a first attempt with HTTP 200 and a well-formed JSON body makes
`_make_request` return exactly the parsed object, unchanged and with no
sleeps — for any parsed value, in particular the body
with a results list holding the single object with id 1. -/
theorem c7_ok_first_attempt_returns_parsed_body
    (oracle : Nat → Resp) (randomOracle : Nat → Rat) (maxRetries : Nat)
    (v : JsonV) (hmr : maxRetries ≠ 0) (h0 : oracle 0 = .ok v) :
    make_request oracle randomOracle maxRetries = ([], .ok v) := by
  obtain ⟨r, rfl⟩ := Nat.exists_eq_succ_of_ne_zero hmr
  simp [make_request, make_request_loop, h0]

/-- C7 witness: with the default budget of 3 and a first attempt answering
200 with body `{"results":[{"id":1}]}`, the call returns that object. -/
theorem c7_ok_first_attempt_returns_parsed_body_witness :
    make_request (fun _ => .ok resultsIdOne) (fun _ => 0) defaultMaxRetries
      = ([], .ok resultsIdOne) :=
  c7_ok_first_attempt_returns_parsed_body _ _ _ resultsIdOne (by decide) rfl

/-- Shared lemma: whenever a loop iteration reaches the exponential-backoff
code (a non-429, non-200 status that is not the final attempt, lines 157-160,
or a transport error that is not the final attempt, lines 172-175), the run
ends at once with `NameError('random')` and no sleep happens. -/
theorem make_request_backoff_branch
    (oracle : Nat → Resp) (randomOracle : Nat → Rat)
    (maxRetries attempt r : Nat) (hnotlast : attempt ≠ maxRetries - 1) :
    (∀ st ra body, oracle attempt = .other st ra body → st ≠ 429 →
      make_request_loop oracle randomOracle maxRetries attempt (r + 1)
        = ([], .error (.nameError "random")))
  ∧ (∀ msg, oracle attempt = .transport msg →
      make_request_loop oracle randomOracle maxRetries attempt (r + 1)
        = ([], .error (.nameError "random"))) := by
  have hrand : "random" ∉ mainImportedNames := by decide
  constructor
  · intro st ra body h h429
    simp [make_request_loop, h, h429, hnotlast, hrand]
  · intro msg h
    simp [make_request_loop, h, hnotlast, hrand]

/-- C6: every execution of `_make_request` that reaches an
exponential-backoff branch (non-200/non-429 status with attempts remaining,
or a transport error with attempts remaining) raises `NameError` when it
evaluates the backoff expression, because `random` is not among the names
imported by src/main.py, so the backoff branch never completes a
sleep-and-retry: the run ends immediately with no sleep and no further
attempt. -/
theorem c6_backoff_raises_nameError
    (oracle : Nat → Resp) (randomOracle : Nat → Rat)
    (maxRetries attempt remaining : Nat) (hrem : remaining ≠ 0)
    (hnotlast : attempt ≠ maxRetries - 1) :
    "random" ∉ mainImportedNames
  ∧ (∀ st ra body, oracle attempt = .other st ra body → st ≠ 200 → st ≠ 429 →
      make_request_loop oracle randomOracle maxRetries attempt remaining
        = ([], .error (.nameError "random")))
  ∧ (∀ msg, oracle attempt = .transport msg →
      make_request_loop oracle randomOracle maxRetries attempt remaining
        = ([], .error (.nameError "random"))) := by
  obtain ⟨r, rfl⟩ := Nat.exists_eq_succ_of_ne_zero hrem
  obtain ⟨hother, htransport⟩ :=
    make_request_backoff_branch oracle randomOracle maxRetries attempt r hnotlast
  exact ⟨by decide, fun st ra body h _ h429 => hother st ra body h h429, htransport⟩

/-- C6 witness: with budget 3, a first attempt answering status 500 ends the
run with `NameError('random')`, and so does a first-attempt transport
error. -/
theorem c6_backoff_raises_nameError_witness :
    "random" ∉ mainImportedNames
  ∧ make_request_loop (fun _ => .other 500 none "err") (fun _ => 0) 3 0 3
      = ([], .error (.nameError "random"))
  ∧ make_request_loop (fun _ => .transport "timed out") (fun _ => 0) 3 0 3
      = ([], .error (.nameError "random")) := by
  refine ⟨by decide, ?_, ?_⟩
  · exact (c6_backoff_raises_nameError (fun _ => .other 500 none "err") (fun _ => 0)
      3 0 3 (by decide) (by decide)).2.1 500 none "err" rfl (by decide) (by decide)
  · exact (c6_backoff_raises_nameError (fun _ => .transport "timed out") (fun _ => 0)
      3 0 3 (by decide) (by decide)).2.2 "timed out" rfl

/-- C5 counterexample: with the default budget of 3 and a first attempt
answering status 500 (attempts remaining), the claim requires a sleep equal
to `min(cap, 1 * 2^attempt + jitter)` before the next attempt; instead the
run sleeps nothing at all and raises `NameError('random')` — the duration
slept before a next attempt does not exist, let alone equal the formula. -/
theorem c5_counterexample :
    make_request (fun _ => .other 500 none "Internal Server Error") (fun _ => 0) 3
      = ([], .error (.nameError "random")) := rfl

/-- C5 (amended): on a status >= 500 with attempts remaining, or a transport
failure with attempts remaining, no backoff sleep ever occurs: the backoff
expression `1 + random.random() * (2 ** attempt)` (itself different from the
claimed `min(cap, base * 2^attempt + jitter)`) raises `NameError` because
`random` is unimported, so the run ends at once with an empty sleep list. -/
theorem c5_amended_backoff_never_sleeps
    (oracle : Nat → Resp) (randomOracle : Nat → Rat)
    (maxRetries attempt remaining : Nat) (hrem : remaining ≠ 0)
    (hnotlast : attempt ≠ maxRetries - 1)
    (st : Nat) (ra : Option String) (body msg : String) :
    (oracle attempt = .other st ra body → 500 ≤ st →
      make_request_loop oracle randomOracle maxRetries attempt remaining
        = ([], .error (.nameError "random")))
  ∧ (oracle attempt = .transport msg →
      make_request_loop oracle randomOracle maxRetries attempt remaining
        = ([], .error (.nameError "random"))) := by
  obtain ⟨r, rfl⟩ := Nat.exists_eq_succ_of_ne_zero hrem
  obtain ⟨hother, htransport⟩ :=
    make_request_backoff_branch oracle randomOracle maxRetries attempt r hnotlast
  constructor
  · intro h hst
    exact hother st ra body h (by omega)
  · exact htransport msg

/-- C5 amended witness: concrete 500-then-anything run with budget 3 from
attempt 0: no sleep, `NameError` raised. -/
theorem c5_amended_backoff_never_sleeps_witness :
    make_request_loop (fun _ => .other 503 none "unavailable") (fun _ => 0) 3 0 3
      = ([], .error (.nameError "random")) :=
  (c5_amended_backoff_never_sleeps (fun _ => .other 503 none "unavailable") (fun _ => 0)
    3 0 3 (by decide) (by decide) 503 none "unavailable" "").1 rfl (by decide)

/-- A per-attempt outcome falling under C1's hypothesis: an HTTP status of
at least 500, or a transport-level failure. -/
def isServerFailure : Resp → Bool
  | .other st _ _ => decide (500 ≤ st)
  | .transport _ => true
  | _ => false

/-- C1 counterexample: with the default budget of 3 and every attempt a
transport failure, the claim requires the call to retry, never raise, and
finally return a result whose results field is the empty list; instead the
very first backoff raises `NameError('random')` to the caller and nothing is
ever returned. -/
theorem c1_counterexample :
    make_request (fun _ => .transport "connection reset") (fun _ => 0) 3
      = ([], .error (.nameError "random"))
    ∧ isRaise (make_request (fun _ => .transport "connection reset") (fun _ => 0) 3).2
      = true := ⟨rfl, rfl⟩

/-- C1 (amended): whenever every attempt of the live `_make_request` ends in
a status >= 500 or a transport-level failure, the call raises an exception to
its caller — `NameError('random')` when the failing attempt is not the last
one, `HTTPException` on the last one — and never returns a normalized result;
the `return` of an annotated envelope after exhaustion exists only in the
syntactically dead duplicate at lines 242-248. -/
theorem c1_amended_all_failures_raise
    (oracle : Nat → Resp) (randomOracle : Nat → Rat)
    (maxRetries attempt remaining : Nat) (hrem : remaining ≠ 0)
    (hfail : ∀ i, isServerFailure (oracle i) = true) :
    isRaise (make_request_loop oracle randomOracle maxRetries attempt remaining).2
      = true := by
  obtain ⟨r, rfl⟩ := Nat.exists_eq_succ_of_ne_zero hrem
  have h := hfail attempt
  have hrand : "random" ∉ mainImportedNames := by decide
  cases hc : oracle attempt with
  | ok v => rw [hc] at h; simp [isServerFailure] at h
  | okBadJson => rw [hc] at h; simp [isServerFailure] at h
  | other st ra body =>
    rw [hc] at h
    have hst : 500 ≤ st := by simpa [isServerFailure] using h
    have h429 : st ≠ 429 := by omega
    by_cases hl : attempt = maxRetries - 1
    · subst hl; simp [make_request_loop, hc, h429, isRaise]
    · simp [make_request_loop, hc, h429, hl, hrand, isRaise]
  | transport msg =>
    by_cases hl : attempt = maxRetries - 1
    · subst hl; simp [make_request_loop, hc, isRaise]
    · simp [make_request_loop, hc, hl, hrand, isRaise]

/-- C1 amended witness: the all-transport-failures run with the default
budget raises. -/
theorem c1_amended_all_failures_raise_witness :
    isRaise (make_request_loop (fun _ => .transport "connection reset") (fun _ => 0)
      3 0 3).2 = true :=
  c1_amended_all_failures_raise (fun _ => .transport "connection reset") (fun _ => 0)
    3 0 3 (by decide) (fun _ => rfl)

/-- A run for C2's counterexample: attempt 0 is rate-limited with no
`Retry-After` header, attempt 1 succeeds. -/
def c2Oracle : Nat → Resp
  | 0 => .other 429 none ""
  | _ => .ok .null

/-- C2 counterexample: on a 429 with the `Retry-After` header absent, the
claim requires a sleep of the 5-second default; the live code's default is
`headers.get('Retry-After', 1)`, so the run sleeps exactly 1 second — and 1
is not 5. -/
theorem c2_counterexample :
    make_request c2Oracle (fun _ => 0) 3 = ([(1 : Rat)], .ok .null)
    ∧ (1 : Rat) ≠ 5 := ⟨rfl, by norm_num⟩

/-- C2 (amended): on a 429, the live `_make_request` reads `Retry-After`,
defaults to 1 second (not 5) when the header is absent, sleeps exactly the
parsed value, and moves on to the next attempt — consuming one attempt of
the budget and never touching the exponential-backoff expression; when the
header is present but not a valid integer, `int()` raises `ValueError`
straight to the caller instead of any default. -/
theorem c2_amended_rate_limited_default_one
    (oracle : Nat → Resp) (randomOracle : Nat → Rat)
    (maxRetries attempt remaining : Nat) (hrem : remaining ≠ 0)
    (ra : Option String) (body : String)
    (h : oracle attempt = .other 429 ra body) :
    (ra = none →
      make_request_loop oracle randomOracle maxRetries attempt remaining
        = ((1 : Rat) ::
            (make_request_loop oracle randomOracle maxRetries (attempt + 1) (remaining - 1)).1,
           (make_request_loop oracle randomOracle maxRetries (attempt + 1) (remaining - 1)).2))
  ∧ (∀ hv n, ra = some hv → pyInt hv = some n →
      make_request_loop oracle randomOracle maxRetries attempt remaining
        = ((n : Rat) ::
            (make_request_loop oracle randomOracle maxRetries (attempt + 1) (remaining - 1)).1,
           (make_request_loop oracle randomOracle maxRetries (attempt + 1) (remaining - 1)).2))
  ∧ (∀ hv, ra = some hv → pyInt hv = none →
      make_request_loop oracle randomOracle maxRetries attempt remaining
        = ([], .error (.valueError ("invalid literal for int with base 10: " ++ hv)))) := by
  obtain ⟨r, rfl⟩ := Nat.exists_eq_succ_of_ne_zero hrem
  refine ⟨?_, ?_, ?_⟩
  · rintro rfl
    simp [make_request_loop, h]
  · rintro hv n rfl hn
    simp [make_request_loop, h, hn]
  · rintro hv rfl hn
    simp [make_request_loop, h, hn]

/-- C2 amended witness: the 429-without-header run sleeps 1 second, consumes
the attempt, and continues with the remaining budget. -/
theorem c2_amended_rate_limited_default_one_witness :
    make_request_loop c2Oracle (fun _ => 0) 3 0 3
      = ((1 : Rat) :: (make_request_loop c2Oracle (fun _ => 0) 3 1 2).1,
         (make_request_loop c2Oracle (fun _ => 0) 3 1 2).2) :=
  (c2_amended_rate_limited_default_one c2Oracle (fun _ => 0) 3 0 3 (by decide)
    none "" rfl).1 rfl

/-- C3 counterexample: with the default budget of 3 and a first attempt
answering HTTP 200 with a body that fails to parse as JSON, the claim
requires an immediate return of a results-is-empty object without raising;
instead `return await response.json()` (line 138) has no handler, so the
`json.JSONDecodeError` propagates to the caller: the run raises. -/
theorem c3_counterexample :
    make_request (fun _ => .okBadJson) (fun _ => 0) 3
      = ([], .error .jsonDecodeError)
    ∧ isRaise (make_request (fun _ => .okBadJson) (fun _ => 0) 3).2 = true :=
  ⟨rfl, rfl⟩

/-- C3 (amended): on HTTP 200 with a malformed JSON body, the live
`_make_request` neither retries nor returns: the parse exception propagates
to the caller at once (the `return` of a results-is-empty object on parse
failure exists only in the syntactically dead duplicate at lines 190-196). -/
theorem c3_amended_bad_json_raises
    (oracle : Nat → Resp) (randomOracle : Nat → Rat)
    (maxRetries attempt remaining : Nat) (hrem : remaining ≠ 0)
    (h : oracle attempt = .okBadJson) :
    make_request_loop oracle randomOracle maxRetries attempt remaining
      = ([], .error .jsonDecodeError) := by
  obtain ⟨r, rfl⟩ := Nat.exists_eq_succ_of_ne_zero hrem
  simp [make_request_loop, h]

/-- C3 amended witness: concrete malformed-JSON run. -/
theorem c3_amended_bad_json_raises_witness :
    make_request_loop (fun _ => .okBadJson) (fun _ => 0) 3 0 3
      = ([], .error .jsonDecodeError) :=
  c3_amended_bad_json_raises (fun _ => .okBadJson) (fun _ => 0) 3 0 3 (by decide) rfl

/-- C4 counterexample: with the default budget of 3 and a first attempt
answering 404, the claim requires an immediate return of a normalized empty
result annotated with the status, with no further retries and no raising;
instead the live code treats 404 like every other non-200/non-429 status:
since attempts remain it enters the backoff branch and raises
`NameError('random')`. -/
theorem c4_counterexample :
    make_request (fun _ => .other 404 none "Not Found") (fun _ => 0) 3
      = ([], .error (.nameError "random"))
    ∧ isRaise (make_request (fun _ => .other 404 none "Not Found") (fun _ => 0) 3).2
      = true := ⟨rfl, rfl⟩

/-- C4 (amended): on a 4xx status other than 429, the live `_make_request`
never returns an annotated empty result: on the final attempt it raises
`HTTPException` carrying the status and message, and on any earlier attempt
it enters the backoff branch — which 4xx statuses do reach, the guard being
only `attempt == max_retries - 1` — and raises `NameError('random')`; the
annotated empty-result return exists only in the syntactically dead
duplicate at lines 208-223. -/
theorem c4_amended_4xx_raises
    (oracle : Nat → Resp) (randomOracle : Nat → Rat)
    (maxRetries attempt remaining : Nat) (st : Nat) (ra : Option String)
    (body : String) (hrem : remaining ≠ 0)
    (h : oracle attempt = .other st ra body)
    (h4 : 400 ≤ st) (h5 : st < 500) (h429 : st ≠ 429) :
    (attempt = maxRetries - 1 →
      make_request_loop oracle randomOracle maxRetries attempt remaining
        = ([], .error (.httpException st
            ("TMDB API error: " ++ toString st ++ " - " ++ body))))
  ∧ (attempt ≠ maxRetries - 1 →
      make_request_loop oracle randomOracle maxRetries attempt remaining
        = ([], .error (.nameError "random"))) := by
  obtain ⟨r, rfl⟩ := Nat.exists_eq_succ_of_ne_zero hrem
  constructor
  · rintro rfl
    simp [make_request_loop, h, h429]
  · intro hl
    exact (make_request_backoff_branch oracle randomOracle maxRetries attempt r hl).1
      st ra body h h429

/-- C4 amended witness: a 404 on the final attempt of a budget of 1 raises
`HTTPException(404, ...)`; a 404 with attempts remaining raises
`NameError('random')`. -/
theorem c4_amended_4xx_raises_witness :
    make_request_loop (fun _ => .other 404 none "Not Found") (fun _ => 0) 1 0 1
      = ([], .error (.httpException 404
          ("TMDB API error: " ++ toString 404 ++ " - " ++ "Not Found")))
    ∧ make_request_loop (fun _ => .other 404 none "Not Found") (fun _ => 0) 3 0 3
      = ([], .error (.nameError "random")) := by
  constructor
  · exact (c4_amended_4xx_raises (fun _ => .other 404 none "Not Found") (fun _ => 0)
      1 0 1 404 none "Not Found" (by decide) rfl (by decide) (by decide) (by decide)).1 rfl
  · exact (c4_amended_4xx_raises (fun _ => .other 404 none "Not Found") (fun _ => 0)
      3 0 3 404 none "Not Found" (by decide) rfl (by decide) (by decide) (by decide)).2
      (by decide)

/-- Python values as returned by `json.loads` in src/openai_utils.py. -/
inductive PyVal where
  | none
  | bool (b : Bool)
  | num (n : Int)
  | str (s : String)
  | list (elems : List PyVal)
  | dict (fields : List (String × PyVal))

/-- The outcome of the `openai.ChatCompletion.create` call of lines 55-63
of src/openai_utils.py combined with the `response.choices[0].message`
access of line 68: either the call (or the access path) raises, or the
message lacks a `content` key (a `KeyError` at line 68), or it yields the
completion text. -/
inductive CompletionOutcome where
  | raisesExc (msg : String)
  | missingContent
  | content (s : String)

/-- The code-fence marker of three backticks stripped at line 70. -/
def fenceMarker : String := "```"

/-- The text cleanup of lines 68-70 of src/openai_utils.py:
`content.strip()`, then `.replace('```json', '').replace('```', '').strip()`. -/
def cleanContent (content : String) : String :=
  ((content.trim.replace (fenceMarker ++ "json") "").replace fenceMarker "").trim

/-- `OpenAIService.get_direct_streaming_links` (src/openai_utils.py lines
16-79), with `json.loads` abstracted as the function argument `loads`
(`Option.none` standing for a raised `json.JSONDecodeError`).  The `Except`
layer records whether a raise escapes to the caller; every branch of the
source returns, so every branch here is `.ok`: an exception from the API
call is absorbed by the outer `except Exception` of line 77, a `KeyError`
or decode error by the inner `except` of line 73, and a parse result that
is not a list fails the `isinstance(links, list)` test of line 72 and
degrades to the empty list. -/
def get_direct_streaming_links (loads : String → Option PyVal)
    (outcome : CompletionOutcome) : Except String (List PyVal) :=
  match outcome with
  | .raisesExc _ => .ok []
  | .missingContent => .ok []
  | .content s =>
    match loads (cleanContent s) with
    | Option.none => .ok []
    | some (.list xs) => .ok xs
    | some _ => .ok []

/-- C8: for every completion behavior and every parser behavior,
`get_direct_streaming_links` never raises to its caller; it strips the
code-fence markers, parses the remaining text, returns the parsed value
exactly when it is a list, and returns the empty list on an exception from
the API call, a missing content field, a parse failure, or a non-list
parse result. -/
theorem c8_streaming_links_never_raise
    (loads : String → Option PyVal) (outcome : CompletionOutcome) :
    (∃ l, get_direct_streaming_links loads outcome = .ok l)
  ∧ (∀ s xs, outcome = .content s → loads (cleanContent s) = some (.list xs) →
      get_direct_streaming_links loads outcome = .ok xs)
  ∧ (∀ s, outcome = .content s → loads (cleanContent s) = Option.none →
      get_direct_streaming_links loads outcome = .ok [])
  ∧ (∀ s v, outcome = .content s → loads (cleanContent s) = some v →
      (∀ xs, v ≠ .list xs) →
      get_direct_streaming_links loads outcome = .ok [])
  ∧ (∀ msg, outcome = .raisesExc msg →
      get_direct_streaming_links loads outcome = .ok [])
  ∧ (outcome = .missingContent →
      get_direct_streaming_links loads outcome = .ok []) := by
  refine ⟨?_, ?_, ?_, ?_, ?_, ?_⟩
  · cases outcome with
    | raisesExc msg => exact ⟨[], rfl⟩
    | missingContent => exact ⟨[], rfl⟩
    | content s =>
      cases hl : loads (cleanContent s) with
      | none => exact ⟨[], by simp [get_direct_streaming_links, hl]⟩
      | some v =>
        cases v with
        | list xs => exact ⟨xs, by simp [get_direct_streaming_links, hl]⟩
        | none => exact ⟨[], by simp [get_direct_streaming_links, hl]⟩
        | bool b => exact ⟨[], by simp [get_direct_streaming_links, hl]⟩
        | num n => exact ⟨[], by simp [get_direct_streaming_links, hl]⟩
        | str t => exact ⟨[], by simp [get_direct_streaming_links, hl]⟩
        | dict kvs => exact ⟨[], by simp [get_direct_streaming_links, hl]⟩
  · rintro s xs rfl hl
    simp [get_direct_streaming_links, hl]
  · rintro s rfl hl
    simp [get_direct_streaming_links, hl]
  · rintro s v rfl hl hv
    cases v with
    | list xs => exact absurd rfl (hv xs)
    | none => simp [get_direct_streaming_links, hl]
    | bool b => simp [get_direct_streaming_links, hl]
    | num n => simp [get_direct_streaming_links, hl]
    | str t => simp [get_direct_streaming_links, hl]
    | dict kvs => simp [get_direct_streaming_links, hl]
  · rintro msg rfl
    rfl
  · rintro rfl
    rfl

/-- C8 witness: a completion whose cleaned text parses to a one-element list
is returned as that list, and a completion that raises yields the empty
list. -/
theorem c8_streaming_links_never_raise_witness :
    get_direct_streaming_links (fun _ => some (.list [.str "Netflix"]))
      (.content "x") = .ok [.str "Netflix"]
    ∧ get_direct_streaming_links (fun _ => some (.list [.str "Netflix"]))
      (.raisesExc "boom") = .ok [] := by
  constructor
  · exact (c8_streaming_links_never_raise (fun _ => some (.list [.str "Netflix"]))
      (.content "x")).2.1 "x" [.str "Netflix"] rfl rfl
  · exact (c8_streaming_links_never_raise (fun _ => some (.list [.str "Netflix"]))
      (.raisesExc "boom")).2.2.2.2.1 "boom" rfl

/-- Python dict item assignment `d[k] = v` on a dict modelled as an
association list: overwrite the first binding of `k`, else append. -/
def dictSet : List (String × String) → String → String → List (String × String)
  | [], k, v => [(k, v)]
  | (k', v') :: rest, k, v =>
    if k' = k then (k, v) :: rest else (k', v') :: dictSet rest k v

/-- The caller's `params` object as observed after the call, per lines 93-94
of src/main.py (`params = params or ...` then `params['api_key'] = ...`;
the rest of `_make_request` only reads `params`).  `Option.none` models the
caller passing `params=None` (the default of line 75).  The `or` rebinding
keeps the caller's own object exactly when it is truthy — a non-empty dict —
so only then does the item assignment of line 94 mutate the caller's
mapping; a `None` or empty argument is replaced by a fresh dict and the
caller's value is untouched. -/
def callerParamsAfter (params : Option (List (String × String)))
    (apiKey : String) : Option (List (String × String)) :=
  match params with
  | Option.none => Option.none
  | some d => if d = [] then some d else some (dictSet d "api_key" apiKey)

/-- Looking up the key just set by `dictSet` yields the value just set. -/
theorem lookup_dictSet (d : List (String × String)) (k v : String) :
    (dictSet d k v).lookup k = some v := by
  induction d with
  | nil => simp [dictSet, List.lookup]
  | cons hd tl ih =>
    obtain ⟨k', v'⟩ := hd
    by_cases hk : k' = k
    · simp [dictSet, hk, List.lookup]
    · have hne : (k == k') = false := beq_eq_false_iff_ne.mpr (Ne.symm hk)
      simp [dictSet, hk, List.lookup, ih, hne]

/-- C9 counterexample: a caller passing the non-empty mapping with the
single entry query ↦ batman finds, after the call, that its own mapping has
gained an `api_key` entry — the mapping is not left unchanged. -/
theorem c9_counterexample :
    callerParamsAfter (some [("query", "batman")]) "KEY"
      = some [("query", "batman"), ("api_key", "KEY")]
    ∧ callerParamsAfter (some [("query", "batman")]) "KEY"
      ≠ some [("query", "batman")] := by
  exact ⟨rfl, by decide⟩

/-- C9 (amended): the caller-supplied params mapping is mutated whenever it
is non-empty — `_make_request` writes the `api_key` entry into the caller's
own mapping, and after the call the caller can read the API key back out of
it; only a `None` or empty mapping is left untouched, because the
`params or ...` rebinding replaces those with a fresh dict. -/
theorem c9_amended_params_mutated_when_nonempty
    (d : List (String × String)) (apiKey : String) :
    callerParamsAfter Option.none apiKey = Option.none
  ∧ callerParamsAfter (some []) apiKey = some []
  ∧ (d ≠ [] → callerParamsAfter (some d) apiKey
        = some (dictSet d "api_key" apiKey))
  ∧ (d ≠ [] → (dictSet d "api_key" apiKey).lookup "api_key" = some apiKey) := by
  refine ⟨rfl, rfl, ?_, fun _ => lookup_dictSet d "api_key" apiKey⟩
  intro hd
  simp [callerParamsAfter, hd]

/-- C9 amended witness: the caller's page ↦ 1 mapping is mutated and the
API key can be read back from the caller's mapping after the call. -/
theorem c9_amended_params_mutated_when_nonempty_witness :
    callerParamsAfter (some [("page", "1")]) "KEY"
      = some (dictSet [("page", "1")] "api_key" "KEY")
    ∧ (dictSet [("page", "1")] "api_key" "KEY").lookup "api_key" = some "KEY" := by
  have h := c9_amended_params_mutated_when_nonempty [("page", "1")] "KEY"
  exact ⟨h.2.2.1 (by decide), h.2.2.2 (by decide)⟩

/-- Python positional-argument binding: calling a function that declares
`params` positional parameters, the last `defaults` of which carry default
values, with `args` positional arguments raises `TypeError` before the body
runs when too many or too few arguments are supplied. -/
def pyBindPositional (params defaults args : Nat) : Except String Unit :=
  if params < args then .error "TypeError"
  else if args + defaults < params then .error "TypeError"
  else .ok ()

/-- Positional parameters of `TMDBClient.get_trending` besides `self`
(src/main.py line 250: `media_type`, `time_window`). -/
def get_trending_paramCount : Nat := 2

/-- Number of those parameters that carry default values (both do). -/
def get_trending_defaultCount : Nat := 2

/-- Positional arguments the `GET /api/trending` handler passes to
`tmdb_client.get_trending` at line 333: `media_type`, `time_window`,
`page`. -/
def trending_route_argCount : Nat := 3

/-- The `GET /api/trending` route handler, src/main.py lines 331-334: it
calls `tmdb_client.get_trending(media_type, time_window, page)`, so the
argument binding runs first; only if it succeeded would the handler obtain
the trending results (abstracted as `trendingResults`) and wrap them in its
JSON response. -/
def api_trending_route (trendingResults : List JsonV)
    (media_type time_window : String) (page : Int) :
    Except String (List JsonV) :=
  match pyBindPositional get_trending_paramCount get_trending_defaultCount
      trending_route_argCount with
  | .error e => .error e
  | .ok _ => .ok trendingResults

/-- C10: every request to `GET /api/trending` fails: the handler passes
three positional arguments to `TMDBClient.get_trending`, which accepts only
two, so binding raises `TypeError` for all inputs and the route never
returns trending results. -/
theorem c10_trending_route_always_typeError
    (trendingResults : List JsonV) (media_type time_window : String)
    (page : Int) :
    api_trending_route trendingResults media_type time_window page
      = .error "TypeError"
    ∧ get_trending_paramCount < trending_route_argCount :=
  ⟨rfl, by decide⟩
